import Mathlib

set_option maxRecDepth 100000

/-!
Verification of the news fetch pipeline (`airflow_dags_fixed/fetch_news.py`)
against its natural-language specification.

Python strings are modelled as lists of characters (`Str`), Python
exceptions as `Except`, and the external collaborators (configuration
store, HTTP endpoint, local filesystem, object storage) as explicit
parameters of the translated functions.  Side effects on the filesystem
and the network are recorded in an explicit event trace.
-/

/-- Python strings are modelled as lists of characters. -/
abbrev Str := List Char

/-- Characters removed by Python `str.strip()` (the ASCII whitespace set). -/
def pyIsSpace (c : Char) : Bool :=
  c == ' ' || c == '\t' || c == '\n' || c == '\r' || c == '\x0b' || c == '\x0c'

/-- Python `s.strip()`: drop leading and trailing whitespace. -/
def pyStrip (s : Str) : Str :=
  ((s.dropWhile pyIsSpace).reverse.dropWhile pyIsSpace).reverse

/-- Index of the last occurrence of `c` in `s`, if any.  This is the value
of Python `s.rfind(c)`; the `none` case corresponds to the return value
`-1`. -/
def lastIdx (c : Char) : Str → Option Nat
  | [] => none
  | a :: rest =>
    match lastIdx c rest with
    | some i => some (i + 1)
    | none => if a = c then some 0 else none

/-- `clean_article_content` from `fetch_news.py`.  The argument `none`
models the Python argument `None`; the `rawContent = []` test together
with the `none` case models `if not content`.  A failed `rfind` returns
`-1` in Python, so the `101 ≤ index` test fails and the hard 199-character
truncation is taken: that is the `none` branch of the inner match. -/
def clean_article_content (content : Option Str) : Str :=
  match content with
  | none => []
  | some rawContent =>
    if rawContent = [] then []
    else
      let cleaned := pyStrip rawContent
      if 200 < cleaned.length then
        match lastIdx '.' cleaned with
        | some lastPeriodIndex =>
          if 100 < lastPeriodIndex then cleaned.take (lastPeriodIndex + 1)
          else cleaned.take 199
        | none => cleaned.take 199
      else cleaned

/-- Concrete content used to instantiate the claim about sentence-boundary
truncation: 150 letters, a period, then 101 more letters. -/
def contentWithMidPeriod : Str :=
  List.replicate 150 'a' ++ '.' :: List.replicate 101 'b'

/-- Concrete content whose last period sits at index 999: the cleaner
returns all 1000 characters. -/
def contentLongTail : Str :=
  List.replicate 999 'a' ++ ['.']

/-- Concrete content with no period at all, 300 characters long. -/
def contentNoPeriod : Str :=
  List.replicate 300 'b'

/-- The trimmed form of an optional content value (empty for `None`). -/
def stripOf (oc : Option Str) : Str :=
  match oc with
  | none => []
  | some s => pyStrip s

/-- Length of the trimmed form of an optional content value. -/
def trimmedLen (oc : Option Str) : Nat :=
  (stripOf oc).length

/-- The nested `source` object of a raw article: a JSON object with an
optional `name` field.  `name = none` means the key is absent,
`name = some none` means it is present with value `null`.  The model
treats a present, non-null source object as a truthy (non-empty)
dictionary. -/
structure SourceObj where
  name : Option (Option Str)
deriving DecidableEq, Repr

/-- A raw article as delivered by the search API.  Every field is doubly
optional: the outer `Option` is key presence in the JSON object, the
inner `Option` distinguishes `null` from a string value. -/
structure Article where
  title : Option (Option Str)
  publishedAt : Option (Option Str)
  url : Option (Option Str)
  source : Option (Option SourceObj)
  author : Option (Option Str)
  urlToImage : Option (Option Str)
  content : Option (Option Str)
deriving DecidableEq, Repr

/-- A normalized record (one row of the DataFrame built by
`process_articles_to_dataframe`).  Fields that Python can leave as `None`
(a present-but-null JSON value is passed through verbatim) are `Option
Str`. -/
structure NewsRecord where
  newsTitle : Str
  timestamp : Option Str
  url_source : Option Str
  content : Str
  source : Option Str
  author : Str
  urlToImage : Option Str
  processed_at : Str
deriving DecidableEq, Repr

/-- `article.get('title', '').strip()`: an absent key defaults to the
empty string, but a present `null` makes `.strip()` raise an
`AttributeError` (`None` has no `strip`), which the per-article handler
catches. -/
def extract_news_title (a : Article) : Except Unit Str :=
  match a.title.getD (some []) with
  | none => Except.error ()
  | some s => Except.ok (pyStrip s)

/-- `article.get('source', \x7b\x7d).get('name', '') if article.get('source')
else ''`: absent or null source objects are falsy and give the empty
string; a present source object passes its `name` value through (possibly
`null`). -/
def extract_source_name (a : Article) : Option Str :=
  match a.source.getD none with
  | none => some []
  | some obj =>
    match obj.name.getD (some []) with
    | none => none
    | some s => some s

/-- `article.get('author', '').strip() if article.get('author') else ''`:
absent, null and empty authors are falsy and give the empty string;
otherwise the value is trimmed.  The guard is why this field, unlike the
title, never raises on `null`. -/
def extract_author (a : Article) : Str :=
  match a.author.getD none with
  | none => []
  | some s => if s = [] then [] else pyStrip s

/-- `article.get(key, '')` for the fields passed through verbatim:
`none` is Python `None` (a present null travels into the record). -/
def rawField (f : Option (Option Str)) : Option Str :=
  f.getD (some [])

/-- The row built for one article once the title extraction succeeded.
`now` is the `datetime.datetime.now().isoformat()` reading taken while
this row is created. -/
def rowOf (now : Str) (newsTitle : Str) (a : Article) : NewsRecord :=
  { newsTitle := newsTitle
    timestamp := rawField a.publishedAt
    url_source := rawField a.url
    content := clean_article_content (rawField a.content)
    source := extract_source_name a
    author := extract_author a
    urlToImage := rawField a.urlToImage
    processed_at := now }

/-- One iteration of the loop body of `process_articles_to_dataframe`:
either a fully extracted row or the exception swallowed by the
per-article handler.  The title extraction is the only fallible step; all
other field extractions are total. -/
def processArticle (now : Str) (a : Article) : Except Unit NewsRecord :=
  match extract_news_title a with
  | Except.error e => Except.error e
  | Except.ok t => Except.ok (rowOf now t a)

/-- Whether the per-article processing of `a` raises (and the article is
therefore skipped). -/
def articleThrows (a : Article) : Bool :=
  match extract_news_title a with
  | Except.error _ => true
  | Except.ok _ => false

/-- The loop of `process_articles_to_dataframe`: `cnt` is
`processed_count`, which indexes the per-row clock readings and advances
only when an article is processed successfully. -/
def processGo (clock : Nat → Str) : Nat → List Article → List NewsRecord
  | _, [] => []
  | cnt, a :: rest =>
    match processArticle (clock cnt) a with
    | Except.ok r => r :: processGo clock (cnt + 1) rest
    | Except.error _ => processGo clock cnt rest

/-- `process_articles_to_dataframe` from `fetch_news.py`.  The DataFrame
is modelled as the list of its rows; `clock k` is the
`datetime.datetime.now().isoformat()` reading taken while the `k`-th
surviving row is appended. -/
def process_articles_to_dataframe (clock : Nat → Str) (articles : List Article) :
    List NewsRecord :=
  processGo clock 0 articles

/-- Rows produced, in order, for a list of surviving articles, with clock
readings starting at `cnt`.  Used to state order preservation. -/
def survivorRows (clock : Nat → Str) : Nat → List Article → List NewsRecord
  | _, [] => []
  | cnt, a :: rest =>
    match extract_news_title a with
    | Except.ok t => rowOf (clock cnt) t a :: survivorRows clock (cnt + 1) rest
    | Except.error _ => survivorRows clock cnt rest

/-- An article whose `title` key is present with value `null` and whose
other keys are absent. -/
def nullTitleArticle : Article :=
  { title := some none, publishedAt := none, url := none, source := none,
    author := none, urlToImage := none, content := none }

/-- An article whose `title` key is absent altogether. -/
def absentTitleArticle : Article :=
  { title := none, publishedAt := none, url := none, source := none,
    author := none, urlToImage := none, content := none }

/-- The characters of the string `ok`. -/
def okStr : Str := ['o', 'k']

/-- One parsed JSON page body from the search API.  Absent keys are
`none`; `data.get('status')`, `data.get('totalResults', 0)`,
`data.get('articles', [])` and `data.get('message', ...)` read these
fields with their Python defaults. -/
structure PageResponse where
  status : Option Str
  totalResults : Option Nat
  articles : Option (List Article)
  message : Option Str
deriving Repr

/-- Errors surfaced by `fetch_news_from_api`: a transport/HTTP error
raised by `requests.get` or `raise_for_status` (re-raised by the first
`except` clause) or the `ValueError` raised on a non-`ok` API status
(re-raised by the second `except` clause).  `fuelExhausted` is an
artifact of bounding the modelled `while True` loop; it is unreachable
for any positive bound because the loop body ends in an unconditional
`break`. -/
inductive FetchError
  | http
  | badStatus (message : Option Str)
  | fuelExhausted
deriving DecidableEq, Repr

/-- The accumulated result of `fetch_news_from_api`: the dictionary
`final_data` built after the loop. -/
structure FetchResult where
  status : Str
  totalResults : Nat
  articles : List Article
deriving Repr

/-- The `while True` loop of `fetch_news_from_api`.  `respOf page` is the
outcome of `requests.get` + `raise_for_status` + `.json()` for that page
number; `all` is `all_articles`, `total` is `total_results`, and `reqs`
counts the HTTP requests issued so far.  Each arm mirrors one statement
of the loop body; the final `.ok` arm is the unconditional `break` that
precedes the disabled `page += 1`. -/
def fetchLoop (respOf : Nat → Except Unit PageResponse) :
    Nat → Nat → List Article → Nat → Nat →
      Except FetchError (List Article × Nat) × Nat
  | 0, _, _, _, reqs => (Except.error FetchError.fuelExhausted, reqs)
  | _ + 1, page, all, total, reqs =>
    match respOf page with
    | Except.error _ => (Except.error FetchError.http, reqs + 1)
    | Except.ok data =>
      if data.status ≠ some okStr then
        (Except.error (FetchError.badStatus data.message), reqs + 1)
      else
        let articles := data.articles.getD []
        if articles = [] then (Except.ok (all, page), reqs + 1)
        else
          let all2 := all ++ articles
          let total2 := if page = 1 then data.totalResults.getD 0 else total
          if total2 ≤ all2.length then (Except.ok (all2, page), reqs + 1)
          else if articles.length < 100 then (Except.ok (all2, page), reqs + 1)
          else (Except.ok (all2, page), reqs + 1)

/-- `fetch_news_from_api` from `fetch_news.py`, relative to a response
oracle `respOf` (the API key, query and date window are fixed inside it)
and a loop bound `fuel`.  Returns the constructed `final_data` together
with the number of HTTP requests issued. -/
def fetch_news_from_api (respOf : Nat → Except Unit PageResponse)
    (fuel : Nat) : Except FetchError FetchResult × Nat :=
  match fetchLoop respOf fuel 1 [] 0 0 with
  | (Except.ok (all, _), reqs) =>
    (Except.ok { status := okStr, totalResults := all.length, articles := all },
     reqs)
  | (Except.error e, reqs) => (Except.error e, reqs)

/-- A page reporting five articles, used to instantiate claim C5. -/
def pageWithFive : PageResponse :=
  { status := some okStr, totalResults := some 5,
    articles := some (List.replicate 5 absentTitleArticle), message := none }

/-- Outcome of `Variable.get("NEWS_API_KEY")`: the store raises, the
variable is absent (Airflow raises `KeyError`), or a string value is
returned. -/
inductive StoreResult
  | raises
  | absent
  | value (s : Str)
deriving DecidableEq, Repr

/-- The error raised by `get_api_key_from_airflow` (the Python
`ValueError`, called `CredentialError` in the specification). -/
inductive CredentialError
  | notFound
deriving DecidableEq, Repr

/-- `get_api_key_from_airflow` from `fetch_news.py`.  A raising or absent
store makes `Variable.get` raise, which the `except` clause converts into
the final `ValueError`; a present empty or whitespace-only value raises
the inner `ValueError`, converted the same way; otherwise the trimmed
value is returned. -/
def get_api_key_from_airflow (store : StoreResult) :
    Except CredentialError Str :=
  match store with
  | StoreResult.raises => Except.error CredentialError.notFound
  | StoreResult.absent => Except.error CredentialError.notFound
  | StoreResult.value s =>
    if s = [] then Except.error CredentialError.notFound
    else if pyStrip s = [] then Except.error CredentialError.notFound
    else Except.ok (pyStrip s)

/-- `upload_to_gcs` from `fetch_news.py`, relative to the outcome of the
storage-client calls inside the `try` block: if they succeed the function
returns `True`; any exception is logged and re-raised, so the nominal
`False` return is never produced. -/
def upload_to_gcs (attempt : Except Unit Unit) : Except Unit Bool :=
  match attempt with
  | Except.ok _ => Except.ok true
  | Except.error e => Except.error e

/-- `save_dataframe_to_parquet` from `fetch_news.py`, relative to whether
the parquet file exists after `to_parquet` (`writeOk`): on success the
filename is returned, otherwise a `WriteError` (either the re-raised
serialization failure or the explicit `file was not created` exception)
propagates. -/
def save_dataframe_to_parquet (writeOk : Bool) (filename : Str) :
    Except Unit Str :=
  if writeOk then Except.ok filename else Except.error ()

/-- Observable side effects of one driver run: HTTP page requests, the
local parquet write, the upload call, and the local-file removal. -/
inductive Event
  | httpGet (page : Nat)
  | fsWrite (filename : Str)
  | gcsUpload (bucket : Str) (dest : Str)
  | fsRemove (filename : Str)
deriving DecidableEq, Repr

/-- The page requests recorded for `reqs` issued HTTP calls (pages are
numbered from 1). -/
def httpEvents (reqs : Nat) : List Event :=
  (List.range reqs).map (fun i => Event.httpGet (i + 1))

/-- Whether `f` exists locally after the run described by `events`: it
was written and not subsequently removed. -/
def localFileExists (events : List Event) (f : Str) : Bool :=
  decide (Event.fsWrite f ∈ events) && !(decide (Event.fsRemove f ∈ events))

/-- The fatal outcomes of `fetch_news_data`; per-article normalization
failures are swallowed earlier and never surface here. -/
inductive DriverError
  | credential
  | fetch (e : FetchError)
  | write
  | upload
  | uploadReturnedFalse
deriving DecidableEq, Repr

/-- The environment of one driver run: the configuration store, the HTTP
response oracle with the loop bound for the modelled `while True`, the
per-row clock, the `strftime('%Y%m%d_%H%M%S')` reading used in the
filename, and the outcomes of the parquet write and the storage-client
upload. -/
structure Env where
  store : StoreResult
  respOf : Nat → Except Unit PageResponse
  fuel : Nat
  clock : Nat → Str
  now : Str
  writeOk : Bool
  uploadOk : Bool

/-- `f'news_data_\x7bsearch_query\x7d_\x7bcurrent_time\x7d.parquet'`. -/
def fileNameFor (query now : Str) : Str :=
  "news_data_".toList ++ query ++ ['_'] ++ now ++ ".parquet".toList

/-- The fixed GCS bucket name of the driver. -/
def bucketName : Str := "snowflake-projects-test-gds".toList

/-- `f'news_data_analysis/\x7bfilename\x7d'`, the destination blob name. -/
def destPathFor (query now : Str) : Str :=
  "news_data_analysis/".toList ++ fileNameFor query now

/-- `f'gs://\x7bbucket_name\x7d/\x7bdestination_blob_name\x7d'`, the
returned storage URI. -/
def gsUri (query now : Str) : Str :=
  "gs://".toList ++ bucketName ++ ['/'] ++ destPathFor query now

/-- `fetch_news_data` from `fetch_news.py`: credential, fetch, zero-article
check, normalization, zero-record check, filename, parquet write, upload,
cleanup, URI composition.  Returns the Python result (`None` is the
absent outcome) or the propagated error, together with the event trace of
the run. -/
def fetch_news_data (env : Env) (query : Str) :
    Except DriverError (Option Str) × List Event :=
  match get_api_key_from_airflow env.store with
  | Except.error _ => (Except.error DriverError.credential, [])
  | Except.ok _ =>
    match fetch_news_from_api env.respOf env.fuel with
    | (Except.error e, reqs) => (Except.error (DriverError.fetch e), httpEvents reqs)
    | (Except.ok res, reqs) =>
      let ev0 := httpEvents reqs
      if res.articles = [] then (Except.ok none, ev0)
      else
        let df := process_articles_to_dataframe env.clock res.articles
        if df = [] then (Except.ok none, ev0)
        else
          let filename := fileNameFor query env.now
          match save_dataframe_to_parquet env.writeOk filename with
          | Except.error _ => (Except.error DriverError.write, ev0)
          | Except.ok localPath =>
            let ev1 := ev0 ++ [Event.fsWrite localPath]
            let dest := destPathFor query env.now
            let ev2 := ev1 ++ [Event.gcsUpload bucketName dest]
            match upload_to_gcs (if env.uploadOk then Except.ok ()
                                 else Except.error ()) with
            | Except.error _ => (Except.error DriverError.upload, ev2)
            | Except.ok true =>
              (Except.ok (some (gsUri query env.now)),
               ev2 ++ [Event.fsRemove localPath])
            | Except.ok false => (Except.error DriverError.uploadReturnedFalse, ev2)

/-- A page reporting zero articles. -/
def pageEmpty : PageResponse :=
  { status := some okStr, totalResults := some 0, articles := some [],
    message := none }

/-- A page carrying one processable article. -/
def pageWithOne : PageResponse :=
  { status := some okStr, totalResults := some 1,
    articles := some [absentTitleArticle], message := none }

/-- A driver environment whose fetch yields zero articles. -/
def envZero : Env :=
  { store := StoreResult.value ['k'], respOf := fun _ => Except.ok pageEmpty,
    fuel := 1, clock := fun _ => [], now := ['t'],
    writeOk := true, uploadOk := true }

/-- A driver environment in which every step succeeds. -/
def envGood : Env :=
  { store := StoreResult.value ['k'], respOf := fun _ => Except.ok pageWithOne,
    fuel := 1, clock := fun _ => [], now := ['t'],
    writeOk := true, uploadOk := true }

/-- A driver environment in which the upload step raises after a
successful write. -/
def envBadUpload : Env :=
  { store := StoreResult.value ['k'], respOf := fun _ => Except.ok pageWithOne,
    fuel := 1, clock := fun _ => [], now := ['t'],
    writeOk := true, uploadOk := false }

-- Facts about `lastIdx`: it returns an index of `c`, the greatest one,
-- and `none` exactly when `c` does not occur.
theorem lastIdx_mem {c : Char} : ∀ {s : Str} {i : Nat},
    lastIdx c s = some i → s[i]? = some c := by
  intro s
  induction s with
  | nil => intro i h; simp [lastIdx] at h
  | cons a rest ih =>
    intro i h
    simp only [lastIdx] at h
    cases hrest : lastIdx c rest with
    | some j =>
      rw [hrest] at h
      cases h
      simpa using ih hrest
    | none =>
      rw [hrest] at h
      by_cases hac : a = c
      · simp [hac] at h
        cases h
        simp [hac]
      · simp [hac] at h

theorem lastIdx_none {c : Char} : ∀ {s : Str},
    lastIdx c s = none → ∀ k : Nat, s[k]? ≠ some c := by
  intro s
  induction s with
  | nil => intro _ k; simp
  | cons a rest ih =>
    intro h k
    simp only [lastIdx] at h
    cases hrest : lastIdx c rest with
    | some j => rw [hrest] at h; cases h
    | none =>
      rw [hrest] at h
      by_cases hac : a = c
      · simp [hac] at h
      · cases k with
        | zero => simpa using hac
        | succ k => simpa using ih hrest k

theorem lastIdx_greatest {c : Char} : ∀ {s : Str} {i : Nat},
    lastIdx c s = some i → ∀ k : Nat, i < k → s[k]? ≠ some c := by
  intro s
  induction s with
  | nil => intro i h; simp [lastIdx] at h
  | cons a rest ih =>
    intro i h k hik
    simp only [lastIdx] at h
    cases hrest : lastIdx c rest with
    | some j =>
      rw [hrest] at h
      cases h
      cases k with
      | zero => omega
      | succ k => simpa using ih hrest k (by omega)
    | none =>
      rw [hrest] at h
      by_cases hac : a = c
      · simp [hac] at h
        cases h
        cases k with
        | zero => omega
        | succ k => simpa using lastIdx_none hrest k
      · simp [hac] at h

theorem lastIdx_of_get {c : Char} : ∀ {s : Str} {j : Nat},
    s[j]? = some c → ∃ i, lastIdx c s = some i ∧ j ≤ i := by
  intro s
  induction s with
  | nil => intro j h; simp at h
  | cons a rest ih =>
    intro j h
    cases j with
    | zero =>
      simp at h
      cases hrest : lastIdx c rest with
      | some i => exact ⟨i + 1, by simp [lastIdx, hrest], by omega⟩
      | none => exact ⟨0, by simp [lastIdx, hrest, h], le_refl 0⟩
    | succ j =>
      simp at h
      obtain ⟨i, hi, hji⟩ := ih h
      exact ⟨i + 1, by simp [lastIdx, hi], by omega⟩

theorem getLast?_take_succ {l : Str} {i : Nat} {c : Char} (h : l[i]? = some c) :
    (l.take (i + 1)).getLast? = some c := by
  have hi : i < l.length := by
    by_contra hcon
    push_neg at hcon
    rw [List.getElem?_eq_none hcon] at h
    cases h
  rw [List.getLast?_eq_getElem?]
  have hlen : (l.take (i + 1)).length = i + 1 := by
    simp [List.length_take]
    omega
  rw [hlen]
  simpa [List.getElem?_take_of_succ] using h

/-- Claim C1: for every input whose trimmed length exceeds 200 and which
contains a period at an index greater than 100 (necessarily at or before
the point where the output is truncated), `clean_article_content` returns
the trimmed input cut exactly at the last such period, inclusive of the
period. -/
theorem clean_content_ends_at_last_period (s : Str) (j : Nat)
    (hlen : 200 < (pyStrip s).length) (hj : 100 < j)
    (hper : (pyStrip s)[j]? = some '.') :
    ∃ i : Nat, 100 < i ∧ (pyStrip s)[i]? = some '.' ∧
      (∀ k : Nat, i < k → (pyStrip s)[k]? ≠ some '.') ∧
      clean_article_content (some s) = (pyStrip s).take (i + 1) ∧
      (clean_article_content (some s)).getLast? = some '.' := by
  obtain ⟨i, hli, hji⟩ := lastIdx_of_get hper
  have hi100 : 100 < i := lt_of_lt_of_le hj hji
  have hsne : ¬(s = []) := by
    intro hnil
    rw [hnil] at hlen
    simp [pyStrip] at hlen
  have hclean : clean_article_content (some s) = (pyStrip s).take (i + 1) := by
    simp only [clean_article_content, if_neg hsne, if_pos hlen, hli, if_pos hi100]
  refine ⟨i, hi100, lastIdx_mem hli, lastIdx_greatest hli, hclean, ?_⟩
  rw [hclean]
  exact getLast?_take_succ (lastIdx_mem hli)

/-- Witness for claim C1 at a concrete 252-character input whose only
period sits at index 150. -/
theorem clean_content_ends_at_last_period_witness :
    ∃ i : Nat, 100 < i ∧ (pyStrip contentWithMidPeriod)[i]? = some '.' ∧
      (∀ k : Nat, i < k → (pyStrip contentWithMidPeriod)[k]? ≠ some '.') ∧
      clean_article_content (some contentWithMidPeriod)
        = (pyStrip contentWithMidPeriod).take (i + 1) ∧
      (clean_article_content (some contentWithMidPeriod)).getLast? = some '.' :=
  clean_content_ends_at_last_period contentWithMidPeriod 150
    (by decide) (by decide) (by decide)

/-- Counterexample to claim C2: on a 1000-character trimmed input whose
last period sits at index 999, `clean_article_content` returns all 1000
characters, so the output length is not bounded by a constant of about
200. -/
theorem clean_content_not_length_bounded :
    (clean_article_content (some contentLongTail)).length = 1000 := by decide

/-- Claim C2, amended: the output of `clean_article_content` never exceeds
the trimmed input in length, and it is at most 200 characters whenever the
trimmed input has no period at an index greater than 100; but when a
trimmed input longer than 200 characters has its last period at an index
greater than 100, the output runs to that period and may exceed 200. -/
theorem clean_content_length_amended (oc : Option Str) :
    (clean_article_content oc).length ≤ trimmedLen oc ∧
    ((lastIdx '.' (stripOf oc)).getD 0 ≤ 100 →
      (clean_article_content oc).length ≤ 200) := by
  cases oc with
  | none => simp [clean_article_content, trimmedLen, stripOf]
  | some s =>
    by_cases hnil : s = []
    · subst hnil
      simp [clean_article_content, trimmedLen, stripOf]
    · simp only [clean_article_content, if_neg hnil, trimmedLen, stripOf]
      by_cases hlen : 200 < (pyStrip s).length
      · rw [if_pos hlen]
        cases hlast : lastIdx '.' (pyStrip s) with
        | none =>
          constructor
          · simp [List.length_take]
          · intro _
            simp [List.length_take]
        | some i =>
          by_cases hi : 100 < i
          · constructor
            · simp [hi, List.length_take]
            · intro habs
              simp at habs
              omega
          · constructor
            · simp [hi, List.length_take]
            · intro _
              simp [hi, List.length_take]
      · rw [if_neg hlen]
        exact ⟨le_refl _, fun _ => by omega⟩

/-- Witness for the amended claim C2 at a concrete period-free input of
300 characters: both conjuncts apply and the output stays within 200
characters. -/
theorem clean_content_length_amended_witness :
    (clean_article_content (some contentNoPeriod)).length
      ≤ trimmedLen (some contentNoPeriod) ∧
    (clean_article_content (some contentNoPeriod)).length ≤ 200 :=
  ⟨(clean_content_length_amended (some contentNoPeriod)).1,
   (clean_content_length_amended (some contentNoPeriod)).2 (by decide)⟩

theorem processGo_eq_survivorRows (clock : Nat → Str) :
    ∀ (l : List Article) (cnt : Nat),
      processGo clock cnt l
        = survivorRows clock cnt (l.filter fun a => !(articleThrows a)) := by
  intro l
  induction l with
  | nil => intro cnt; rfl
  | cons a rest ih =>
    intro cnt
    cases hx : extract_news_title a with
    | ok t =>
      have hth : articleThrows a = false := by simp [articleThrows, hx]
      simp [processGo, processArticle, hx, hth, survivorRows, ih]
    | error e =>
      have hth : articleThrows a = true := by simp [articleThrows, hx]
      simp [processGo, processArticle, hx, hth, ih]

theorem processGo_length (clock : Nat → Str) :
    ∀ (l : List Article) (cnt : Nat),
      (processGo clock cnt l).length
        = l.length - l.countP (fun a => articleThrows a) := by
  intro l
  induction l with
  | nil => intro cnt; rfl
  | cons a rest ih =>
    intro cnt
    cases hx : extract_news_title a with
    | ok t =>
      have hle := List.countP_le_length (p := fun a => articleThrows a) (l := rest)
      have hth : articleThrows a = false := by simp [articleThrows, hx]
      simp [processGo, processArticle, hx, List.countP_cons, hth, ih]
      omega
    | error e =>
      have hth : articleThrows a = true := by simp [articleThrows, hx]
      simp [processGo, processArticle, hx, List.countP_cons, hth, ih]

/-- Claim C3: normalizing a sequence of N raw articles of which K throw
during per-article processing produces exactly N−K records, namely the
rows of the surviving articles in their input order (the filtered input
mapped row by row), with no placeholder for a skipped article; the
function is total, so there is no batch-level failure. -/
theorem process_articles_count_and_order (clock : Nat → Str) (l : List Article) :
    process_articles_to_dataframe clock l
      = survivorRows clock 0 (l.filter fun a => !(articleThrows a)) ∧
    (process_articles_to_dataframe clock l).length
      = l.length - l.countP (fun a => articleThrows a) :=
  ⟨processGo_eq_survivorRows clock l 0, processGo_length clock l 0⟩

/-- Counterexample to claim C4: an article whose title field is present
but null is not normalized into a record with an empty `newsTitle` — the
title extraction raises and the article is skipped, so the output is
empty. -/
theorem null_title_article_is_skipped :
    process_articles_to_dataframe (fun _ => []) [nullTitleArticle] = [] := by
  rfl

/-- Claim C4, amended: an article whose title is present but null is
skipped (the call `.strip()` on `None` raises and the per-article handler
drops the article); only an article whose title key is absent is
normalized into a record with an empty `newsTitle`. -/
theorem title_null_skipped_title_absent_kept (a : Article) (now : Str) :
    (a.title = some none → processArticle now a = Except.error ()) ∧
    (a.title = none →
      ∃ r, processArticle now a = Except.ok r ∧ r.newsTitle = []) := by
  constructor
  · intro h
    simp [processArticle, extract_news_title, h]
  · intro h
    refine ⟨rowOf now (pyStrip []) a, ?_, ?_⟩
    · simp [processArticle, extract_news_title, h]
    · simp [rowOf, pyStrip]

/-- Witness for the amended claim C4: the null-title article is dropped,
the absent-title article is kept with an empty title. -/
theorem title_null_skipped_title_absent_kept_witness :
    processArticle [] nullTitleArticle = Except.error () ∧
    (∃ r, processArticle [] absentTitleArticle = Except.ok r ∧
      r.newsTitle = []) :=
  ⟨(title_null_skipped_title_absent_kept nullTitleArticle []).1 rfl,
   (title_null_skipped_title_absent_kept absentTitleArticle []).2 rfl⟩

/-- Claim C5: any non-raising invocation of the fetcher terminates after
exactly one HTTP page request — for every loop bound of at least one —
and returns a result with status `ok` whose count equals the number of
articles on that single page. -/
theorem fetch_single_page (respOf : Nat → Except Unit PageResponse)
    (fuel : Nat) (r : PageResponse) (hfuel : 1 ≤ fuel)
    (h1 : respOf 1 = Except.ok r) (hok : r.status = some okStr) :
    fetch_news_from_api respOf fuel
      = (Except.ok { status := okStr,
                     totalResults := (r.articles.getD []).length,
                     articles := r.articles.getD [] }, 1) := by
  cases fuel with
  | zero => omega
  | succ fuel =>
    simp only [fetch_news_from_api, fetchLoop, h1]
    by_cases hempty : r.articles.getD [] = []
    · simp [hok, hempty]
    · simp [hok, hempty]

/-- Witness for claim C5: page 1 carries `totalResults = 5` and five
articles with page size 100; the fetch halts after one request and
reports a count of 5. -/
theorem fetch_single_page_witness :
    fetch_news_from_api (fun _ => Except.ok pageWithFive) 3
      = (Except.ok { status := okStr,
                     totalResults := (pageWithFive.articles.getD []).length,
                     articles := pageWithFive.articles.getD [] }, 1) :=
  fetch_single_page (fun _ => Except.ok pageWithFive) 3 pageWithFive
    (by decide) rfl rfl

/-- Claim C6: the credential lookup raises a `CredentialError` exactly
when the store raises, the value is absent, or the value is empty or
whitespace-only; in every other case it returns the stored value with
surrounding whitespace stripped.  When the lookup fails, the driver run
records no event at all — in particular no network call. -/
theorem get_api_key_contract :
    (∀ store, get_api_key_from_airflow store
        = Except.error CredentialError.notFound ↔
      store = StoreResult.raises ∨ store = StoreResult.absent ∨
      ∃ s, store = StoreResult.value s ∧ pyStrip s = []) ∧
    (∀ s, pyStrip s ≠ [] →
      get_api_key_from_airflow (StoreResult.value s) = Except.ok (pyStrip s)) ∧
    (∀ env query,
      get_api_key_from_airflow env.store = Except.error CredentialError.notFound →
      (fetch_news_data env query).2 = []) := by
  refine ⟨?_, ?_, ?_⟩
  · intro store
    cases store with
    | raises => simp [get_api_key_from_airflow]
    | absent => simp [get_api_key_from_airflow]
    | value s =>
      by_cases hs : s = []
      · subst hs
        simp only [get_api_key_from_airflow, if_pos rfl]
        constructor
        · intro _
          exact Or.inr (Or.inr ⟨[], rfl, rfl⟩)
        · intro _
          rfl
      · by_cases hstrip : pyStrip s = []
        · simp [get_api_key_from_airflow, hs, hstrip]
        · simp [get_api_key_from_airflow, hs, hstrip]
  · intro s hstrip
    have hs : ¬(s = []) := by
      intro h
      subst h
      exact hstrip rfl
    simp [get_api_key_from_airflow, hs, hstrip]
  · intro env query hk
    simp [fetch_news_data, hk]

/-- Witness for claim C6: a raising store fails, a padded value comes back
trimmed, and a driver run with a raising store records no event. -/
theorem get_api_key_contract_witness :
    (get_api_key_from_airflow StoreResult.raises
      = Except.error CredentialError.notFound) ∧
    (get_api_key_from_airflow (StoreResult.value (' ' :: 'k' :: []))
      = Except.ok (pyStrip (' ' :: 'k' :: []))) ∧
    (fetch_news_data
      { store := StoreResult.raises, respOf := fun _ => Except.error (),
        fuel := 1, clock := fun _ => [], now := [],
        writeOk := true, uploadOk := true } ['q']).2 = [] :=
  ⟨(get_api_key_contract.1 StoreResult.raises).mpr (Or.inl rfl),
   get_api_key_contract.2.1 (' ' :: 'k' :: []) (by decide),
   get_api_key_contract.2.2 _ ['q'] rfl⟩

/-- Claim C7: every invocation of the uploader either returns `True` or
re-raises the caught exception; the nominal boolean failure path is dead,
so the uploader never returns `False`. -/
theorem upload_true_or_raises (attempt : Except Unit Unit) :
    (upload_to_gcs attempt = Except.ok true ∨
      upload_to_gcs attempt = Except.error ()) ∧
    upload_to_gcs attempt ≠ Except.ok false := by
  cases attempt with
  | ok u => cases u; simp [upload_to_gcs]
  | error e => cases e; simp [upload_to_gcs]

theorem httpEvents_one : httpEvents 1 = [Event.httpGet 1] := rfl

/-- Claim C8: when the credential and fetch steps succeed and the fetch
yields zero articles — or normalization yields zero records — the driver
returns the absent result without raising, and its trace holds only the
single page request: no write and no upload call. -/
theorem driver_zero_articles_noop (env : Env) (query : Str) (apiKey : Str)
    (r : PageResponse)
    (hkey : get_api_key_from_airflow env.store = Except.ok apiKey)
    (hfuel : 1 ≤ env.fuel) (h1 : env.respOf 1 = Except.ok r)
    (hok : r.status = some okStr)
    (hzero : r.articles.getD [] = [] ∨
      process_articles_to_dataframe env.clock (r.articles.getD []) = []) :
    fetch_news_data env query = (Except.ok none, [Event.httpGet 1]) := by
  have hfetch := fetch_single_page env.respOf env.fuel r hfuel h1 hok
  simp only [fetch_news_data, hkey, hfetch]
  by_cases hempty : r.articles.getD [] = []
  · simp [hempty, httpEvents_one]
  · cases hzero with
    | inl h => exact absurd h hempty
    | inr h => simp [hempty, h, httpEvents_one]

/-- Witness for claim C8: a live run over a zero-article page returns the
absent result after one page request. -/
theorem driver_zero_articles_noop_witness :
    fetch_news_data envZero ['q'] = (Except.ok none, [Event.httpGet 1]) :=
  driver_zero_articles_noop envZero ['q'] ['k'] pageEmpty rfl (by decide)
    rfl rfl (Or.inl rfl)

/-- Claim C9: when fetch, normalize, write and upload all succeed, the
driver returns the storage URI
`gs://<bucket>/news_data_analysis/news_data_<query>_<timestamp>.parquet`
and deletes the local parquet file, which therefore no longer exists
after the run. -/
theorem driver_success_uri_and_cleanup (env : Env) (query : Str)
    (apiKey : Str) (r : PageResponse)
    (hkey : get_api_key_from_airflow env.store = Except.ok apiKey)
    (hfuel : 1 ≤ env.fuel) (h1 : env.respOf 1 = Except.ok r)
    (hok : r.status = some okStr)
    (hrecs : process_articles_to_dataframe env.clock (r.articles.getD []) ≠ [])
    (hw : env.writeOk = true) (hu : env.uploadOk = true) :
    fetch_news_data env query
      = (Except.ok (some (gsUri query env.now)),
         [Event.httpGet 1, Event.fsWrite (fileNameFor query env.now),
          Event.gcsUpload bucketName (destPathFor query env.now),
          Event.fsRemove (fileNameFor query env.now)]) ∧
    localFileExists (fetch_news_data env query).2 (fileNameFor query env.now)
      = false := by
  have hempty : ¬(r.articles.getD [] = []) := by
    intro h
    apply hrecs
    rw [h]
    rfl
  have hfetch := fetch_single_page env.respOf env.fuel r hfuel h1 hok
  have hrun : fetch_news_data env query
      = (Except.ok (some (gsUri query env.now)),
         [Event.httpGet 1, Event.fsWrite (fileNameFor query env.now),
          Event.gcsUpload bucketName (destPathFor query env.now),
          Event.fsRemove (fileNameFor query env.now)]) := by
    simp only [fetch_news_data, hkey, hfetch]
    simp [hempty, hrecs, hw, hu, save_dataframe_to_parquet, upload_to_gcs,
      httpEvents_one]
  refine ⟨hrun, ?_⟩
  rw [hrun]
  simp [localFileExists]

/-- Witness for claim C9 in an environment where every step succeeds. -/
theorem driver_success_uri_and_cleanup_witness :
    fetch_news_data envGood ['q']
      = (Except.ok (some (gsUri ['q'] envGood.now)),
         [Event.httpGet 1, Event.fsWrite (fileNameFor ['q'] envGood.now),
          Event.gcsUpload bucketName (destPathFor ['q'] envGood.now),
          Event.fsRemove (fileNameFor ['q'] envGood.now)]) ∧
    localFileExists (fetch_news_data envGood ['q']).2
      (fileNameFor ['q'] envGood.now) = false :=
  driver_success_uri_and_cleanup envGood ['q'] ['k'] pageWithOne rfl
    (by decide) rfl rfl (by decide) rfl rfl

/-- Claim C10: when the upload raises after the parquet file has been
written, the driver propagates an `UploadError` and never reaches the
removal step, so the written local file still exists after the run. -/
theorem driver_failed_upload_keeps_file (env : Env) (query : Str)
    (apiKey : Str) (r : PageResponse)
    (hkey : get_api_key_from_airflow env.store = Except.ok apiKey)
    (hfuel : 1 ≤ env.fuel) (h1 : env.respOf 1 = Except.ok r)
    (hok : r.status = some okStr)
    (hrecs : process_articles_to_dataframe env.clock (r.articles.getD []) ≠ [])
    (hw : env.writeOk = true) (hu : env.uploadOk = false) :
    fetch_news_data env query
      = (Except.error DriverError.upload,
         [Event.httpGet 1, Event.fsWrite (fileNameFor query env.now),
          Event.gcsUpload bucketName (destPathFor query env.now)]) ∧
    localFileExists (fetch_news_data env query).2 (fileNameFor query env.now)
      = true := by
  have hempty : ¬(r.articles.getD [] = []) := by
    intro h
    apply hrecs
    rw [h]
    rfl
  have hfetch := fetch_single_page env.respOf env.fuel r hfuel h1 hok
  have hrun : fetch_news_data env query
      = (Except.error DriverError.upload,
         [Event.httpGet 1, Event.fsWrite (fileNameFor query env.now),
          Event.gcsUpload bucketName (destPathFor query env.now)]) := by
    simp only [fetch_news_data, hkey, hfetch]
    simp [hempty, hrecs, hw, hu, save_dataframe_to_parquet, upload_to_gcs,
      httpEvents_one]
  refine ⟨hrun, ?_⟩
  rw [hrun]
  simp [localFileExists]

/-- Witness for claim C10 in an environment whose upload step raises. -/
theorem driver_failed_upload_keeps_file_witness :
    fetch_news_data envBadUpload ['q']
      = (Except.error DriverError.upload,
         [Event.httpGet 1, Event.fsWrite (fileNameFor ['q'] envBadUpload.now),
          Event.gcsUpload bucketName (destPathFor ['q'] envBadUpload.now)]) ∧
    localFileExists (fetch_news_data envBadUpload ['q']).2
      (fileNameFor ['q'] envBadUpload.now) = true :=
  driver_failed_upload_keeps_file envBadUpload ['q'] ['k'] pageWithOne rfl
    (by decide) rfl rfl (by decide) rfl rfl
